import Mathlib

/-!
Verification of the order-status backend (canonical handler in
`src/unnamed/part_000`): HMAC proxy-signature verification, the
order-to-stage resolver, and the composed query handler.

Query parameters are modelled as association lists of decoded
`(key, value)` string pairs, as delivered by `URLSearchParams`.
The HMAC-SHA256 primitive and the upstream GraphQL lookup are external
library calls, so the embedding is parameterised over them.
-/

namespace OrderStatus

/-- JavaScript truthiness of an optional string parameter value:
`undefined` and the empty string are falsy, any other string is truthy. -/
def truthy : Option String → Bool
  | some s => s ≠ ""
  | none => false

/-- JavaScript `a || b` on optional string values: the first operand when
truthy, otherwise the second. -/
def jsOr (a b : Option String) : Option String :=
  if truthy a then a else b

/-- `String.prototype.trim()`: strip leading and trailing whitespace. -/
def jsTrim (s : String) : String :=
  ⟨((s.data.dropWhile Char.isWhitespace).reverse.dropWhile Char.isWhitespace).reverse⟩

/-- `String.prototype.toLowerCase()` on the parameter values in use here. -/
def jsToLower (s : String) : String :=
  ⟨s.data.map Char.toLower⟩

/-- `String.prototype.toUpperCase()` on the fulfillment status values. -/
def jsToUpper (s : String) : String :=
  ⟨s.data.map Char.toUpper⟩

/-- `s.startsWith("#")`: the first character is `#`. -/
def startsWithHash (s : String) : Bool :=
  match s.data with
  | c :: _ => c == '#'
  | [] => false

/-- Value under key `k` in the object built by
`Object.fromEntries(url.searchParams.entries())`: with duplicate keys the
last entry wins. -/
def getParam (params : List (String × String)) (k : String) : Option String :=
  (params.reverse.find? (fun p => p.1 == k)).map (·.2)

/-- Value returned by `url.searchParams.get(k)`: the first entry wins. -/
def getFirstParam (params : List (String × String)) (k : String) : Option String :=
  (params.find? (fun p => p.1 == k)).map (·.2)

/-- The keys of the object built by `Object.fromEntries`, each key once. -/
def objKeys (params : List (String × String)) : List String :=
  (params.map Prod.fst).dedup

/-- Lexicographic comparison of two character lists by codepoint. -/
def charsLe : List Char → List Char → Bool
  | [], _ => true
  | _ :: _, [] => false
  | x :: xs, y :: ys =>
      if x.toNat < y.toNat then true
      else if y.toNat < x.toNat then false
      else charsLe xs ys

/-- Lexicographic comparison of two strings, the order used by the
default JavaScript `Array.prototype.sort()` comparator. -/
def strLe (a b : String) : Bool :=
  charsLe a.data b.data

/-- Insert a string into an already sorted list of strings. -/
def insertSorted (x : String) : List String → List String
  | [] => [x]
  | y :: ys => if strLe x y then x :: y :: ys else y :: insertSorted x ys

/-- Sort a list of strings lexicographically, modelling the default
JavaScript `Array.prototype.sort()` on the (distinct) parameter keys. -/
def sortKeys (l : List String) : List String :=
  l.foldr insertSorted []

/-- The canonical message of `verifyProxySignature`: delete the
`signature` and `hmac` keys, sort the remaining keys, and join
`key=value` for each with no separator. -/
def canonicalMessage (params : List (String × String)) : String :=
  let keys := (objKeys params).filter (fun k => ¬(k = "signature" ∨ k = "hmac"))
  String.join ((sortKeys keys).map (fun k => k ++ "=" ++ ((getParam params k).getD "")))

/-- `crypto.timingSafeEqual(Buffer.from(a), Buffer.from(b))`: throws when
the UTF-8 byte lengths differ, otherwise reports byte-for-byte equality. -/
def timingSafeEqual (a b : String) : Except String Bool :=
  if a.utf8ByteSize = b.utf8ByteSize then Except.ok (a = b)
  else Except.error "Input buffers must have the same byte length"

/-- Result record of `verifyProxySignature`: `{ ok, reason? }`. -/
structure VerifyResult where
  ok : Bool
  reason : Option String
deriving DecidableEq, Repr

/-- `verifyProxySignature(req, secret)` from `src/unnamed/part_000`,
parameterised over the HMAC-SHA256 lowercase-hex digest function
`hmacHex secret message`. An `Except.error` models a thrown exception. -/
def verifyProxySignature (hmacHex : String → String → String)
    (params : List (String × String)) (secret : String) :
    Except String VerifyResult :=
  let provided := jsOr (getParam params "signature") (getParam params "hmac")
  if ¬ truthy provided then
    Except.ok ⟨false, some "Missing signature/hmac"⟩
  else
    let message := canonicalMessage params
    let digest := hmacHex secret message
    match timingSafeEqual digest (provided.getD "") with
    | Except.error e => Except.error e
    | Except.ok ok =>
        Except.ok (if ok then ⟨true, none⟩ else ⟨false, some "Invalid signature/hmac"⟩)

/-- One tracking entry of a fulfillment (`trackingInfo` element); number
and URL are optional strings. -/
structure TrackingInfo where
  number : Option String
  url : Option String
deriving DecidableEq, Repr

/-- One fulfillment entry of the order record. -/
structure Fulfillment where
  trackingInfo : List TrackingInfo
deriving DecidableEq, Repr

/-- The order record returned by the lookup: `createdAtMs` models the
instant `new Date(node.createdAt).getTime()` parsed from the raw
`createdAt` string (epoch milliseconds). -/
structure OrderNode where
  name : String
  createdAt : String
  createdAtMs : Int
  displayFulfillmentStatus : String
  fulfillments : List Fulfillment
deriving DecidableEq, Repr

/-- `hasTracking`: some fulfillment has some tracking entry with a truthy
(non-empty) tracking number or tracking URL. -/
def hasTracking (node : OrderNode) : Bool :=
  node.fulfillments.any (fun f =>
    f.trackingInfo.any (fun t => truthy t.number || truthy t.url))

/-- A stage together with its fixed user-facing message. -/
structure StageObj where
  stage : String
  message : String
deriving DecidableEq, Repr

/-- `computeStage(days)` from `src/unnamed/part_000`: age classification
into processing / packing / shipped. -/
def computeStage (days : Int) : StageObj :=
  if days < 2 then
    ⟨"processing", "Die Bestellung ist bei uns eingegangen und wird nun verarbeitet."⟩
  else if days < 4 then
    ⟨"packing", "Die Bestellung wird von unserem Lager verpackt, die Sendungsnummer erhältst du in Kürze per Mail."⟩
  else ⟨"shipped", "Bestellung versendet."⟩

/-- Lines 186-189 of the handler: age classification followed by the
fulfillment/tracking override that forces `shipped`. -/
def resolveStage (node : OrderNode) (daysSince : Int) : StageObj :=
  let stageObj0 := computeStage daysSince
  if hasTracking node || jsToUpper node.displayFulfillmentStatus = "FULFILLED" then
    ⟨"shipped", "Bestellung versendet."⟩
  else stageObj0

/-- The environment-derived configuration of the handler; each variable
is `none` when unset, mirroring `process.env`. -/
structure Config where
  shop : Option String
  token : Option String
  apiVersion : Option String
  secret : Option String
deriving DecidableEq, Repr

/-- The inbound request: its decoded query parameters. -/
structure Request where
  params : List (String × String)
deriving DecidableEq, Repr

/-- The success payload `{orderName, createdAt, daysSince, stage, message}`
handed to the JSON/HTML formatter. -/
structure Payload where
  orderName : String
  createdAt : String
  daysSince : Int
  stage : String
  message : String
deriving DecidableEq, Repr

/-- Observable outcome of one handler invocation: HTTP status, success
payload (when status 200), error and reason fields of the error body, and
the search query string sent to the order-lookup collaborator (`none` when
no lookup was performed). -/
structure HandlerResult where
  status : Nat
  payload : Option Payload
  error : Option String
  reason : Option String
  lookupQuery : Option String
deriving DecidableEq, Repr

/-- Days elapsed:
`Math.floor((now.getTime() - createdAt.getTime()) / (1000*60*60*24))`. -/
def daysSinceOf (nowMs createdAtMs : Int) : Int :=
  Int.fdiv (nowMs - createdAtMs) 86400000

/-- The search query string built by handler lines 134-141:
`(name:normalized OR name:orderParam)` plus an email clause when the
email parameter is truthy. -/
def buildQueryString (orderParam emailParam : String) : String :=
  let normalized := if startsWithHash orderParam then orderParam else "#" ++ orderParam
  let qs := "(" ++ ("name:" ++ normalized) ++ " OR " ++ ("name:" ++ orderParam) ++ ")"
  if emailParam ≠ "" then qs ++ " AND email:" ++ emailParam else qs

/-- The default export `handler(req, res)` of `src/unnamed/part_000`,
parameterised over the HMAC digest function and the order-lookup
collaborator `lookup` (the GraphQL call: `Except.error` models a thrown
upstream error, `Except.ok none` an empty result set). The surrounding
`try/catch` turns any thrown error into a 500 "Server error" response. -/
def handler (hmacHex : String → String → String) (cfg : Config)
    (lookup : String → Except String (Option OrderNode)) (nowMs : Int)
    (req : Request) : HandlerResult :=
  if ¬ (truthy cfg.shop && truthy cfg.token) then
    { status := 500, payload := none,
      error := some "Missing SHOPIFY_SHOP / SHOPIFY_ACCESS_TOKEN env",
      reason := none, lookupQuery := none }
  else
    match (if truthy cfg.secret then
             verifyProxySignature hmacHex req.params (cfg.secret.getD "")
           else Except.ok ⟨true, none⟩) with
    | Except.error e =>
        { status := 500, payload := none, error := some "Server error",
          reason := some e, lookupQuery := none }
    | Except.ok check =>
      if ¬ check.ok then
        { status := 401, payload := none,
          error := some "Unauthorized proxy request",
          reason := check.reason, lookupQuery := none }
      else
        let orderParam := jsTrim ((getFirstParam req.params "order").getD "")
        let emailParam := jsToLower (jsTrim ((getFirstParam req.params "email").getD ""))
        if orderParam = "" then
          { status := 400, payload := none, error := some "Missing order",
            reason := none, lookupQuery := none }
        else
          let queryString := buildQueryString orderParam emailParam
          match lookup queryString with
          | Except.error e =>
              { status := 500, payload := none, error := some "Server error",
                reason := some e, lookupQuery := some queryString }
          | Except.ok none =>
              { status := 404, payload := none,
                error := some "Order not found", reason := none,
                lookupQuery := some queryString }
          | Except.ok (some node) =>
              let daysSince := daysSinceOf nowMs node.createdAtMs
              let stageObj := resolveStage node daysSince
              { status := 200,
                payload := some ⟨node.name, node.createdAt, daysSince,
                                 stageObj.stage, stageObj.message⟩,
                error := none, reason := none,
                lookupQuery := some queryString }

/-! ## Helper lemmas -/

/-- A fulfillment entry with a truthy tracking number or URL makes
`hasTracking` true. -/
theorem hasTracking_of_entry {node : OrderNode} {f : Fulfillment}
    {t : TrackingInfo} (hf : f ∈ node.fulfillments) (ht : t ∈ f.trackingInfo)
    (h : truthy t.number = true ∨ truthy t.url = true) :
    hasTracking node = true := by
  unfold hasTracking
  rw [List.any_eq_true]
  refine ⟨f, hf, ?_⟩
  rw [List.any_eq_true]
  refine ⟨t, ht, ?_⟩
  rcases h with h | h <;> simp [h]

/-- When neither the `signature` nor the `hmac` parameter is truthy, the
verifier reports the missing-signature failure. -/
theorem verify_missing (hmacHex : String → String → String)
    (params : List (String × String)) (secret : String)
    (h : truthy (jsOr (getParam params "signature") (getParam params "hmac")) = false) :
    verifyProxySignature hmacHex params secret =
      Except.ok ⟨false, some "Missing signature/hmac"⟩ := by
  unfold verifyProxySignature
  simp [h]

/-- With a truthy provided signature, verification reports an invalid
signature when the provided value has the digest's byte length but
differs from it. -/
theorem verify_invalid (hmacHex : String → String → String)
    (params : List (String × String)) (secret s : String)
    (hprov : jsOr (getParam params "signature") (getParam params "hmac") = some s)
    (hs : s ≠ "")
    (hlen : s.utf8ByteSize = (hmacHex secret (canonicalMessage params)).utf8ByteSize)
    (hne : s ≠ hmacHex secret (canonicalMessage params)) :
    verifyProxySignature hmacHex params secret =
      Except.ok ⟨false, some "Invalid signature/hmac"⟩ := by
  unfold verifyProxySignature timingSafeEqual
  rw [hprov]
  simp [truthy, hs, hlen.symm, Ne.symm hne]

/-- With a truthy provided signature of a byte length different from the
digest's, the buffer comparison throws and verification raises. -/
theorem verify_throws (hmacHex : String → String → String)
    (params : List (String × String)) (secret s : String)
    (hprov : jsOr (getParam params "signature") (getParam params "hmac") = some s)
    (hs : s ≠ "")
    (hlen : s.utf8ByteSize ≠ (hmacHex secret (canonicalMessage params)).utf8ByteSize) :
    verifyProxySignature hmacHex params secret =
      Except.error "Input buffers must have the same byte length" := by
  unfold verifyProxySignature timingSafeEqual
  rw [hprov]
  simp [truthy, hs, Ne.symm hlen]

/-- With valid configuration, no signing secret, and a non-empty trimmed
order parameter, the handler sends exactly the built query string to the
order-lookup collaborator, whatever the lookup returns. -/
theorem handler_lookupQuery (hmacHex : String → String → String) (cfg : Config)
    (lookup : String → Except String (Option OrderNode)) (nowMs : Int) (req : Request)
    (hshop : truthy cfg.shop = true) (htok : truthy cfg.token = true)
    (hnosec : truthy cfg.secret = false)
    (hord : jsTrim ((getFirstParam req.params "order").getD "") ≠ "") :
    (handler hmacHex cfg lookup nowMs req).lookupQuery =
      some (buildQueryString (jsTrim ((getFirstParam req.params "order").getD ""))
        (jsToLower (jsTrim ((getFirstParam req.params "email").getD "")))) := by
  unfold handler
  rw [hshop, htok, hnosec]
  simp only [Bool.and_self, not_true_eq_false, if_false, Bool.false_eq_true, ite_false, hord]
  cases hl : lookup (buildQueryString (jsTrim ((getFirstParam req.params "order").getD ""))
      (jsToLower (jsTrim ((getFirstParam req.params "email").getD "")))) with
  | error e => simp [hl, hord]
  | ok o => cases o <;> simp [hl, hord]

/-- With valid configuration, no signing secret, a non-empty trimmed
order parameter, and a lookup that returns the order record, the handler
produces the 200 response whose payload combines the record's name and
creation timestamp, the computed day count and the resolved stage. -/
theorem handler_success (hmacHex : String → String → String) (cfg : Config)
    (node : OrderNode) (nowMs : Int) (req : Request)
    (hshop : truthy cfg.shop = true) (htok : truthy cfg.token = true)
    (hnosec : truthy cfg.secret = false)
    (hord : jsTrim ((getFirstParam req.params "order").getD "") ≠ "") :
    handler hmacHex cfg (fun _ => Except.ok (some node)) nowMs req =
      { status := 200,
        payload := some ⟨node.name, node.createdAt, daysSinceOf nowMs node.createdAtMs,
          (resolveStage node (daysSinceOf nowMs node.createdAtMs)).stage,
          (resolveStage node (daysSinceOf nowMs node.createdAtMs)).message⟩,
        error := none, reason := none,
        lookupQuery := some (buildQueryString
          (jsTrim ((getFirstParam req.params "order").getD ""))
          (jsToLower (jsTrim ((getFirstParam req.params "email").getD "")))) } := by
  unfold handler
  rw [hshop, htok, hnosec]
  simp [hord]

/-- The query string built by the handler, in closed form. -/
theorem buildQueryString_eq (x e : String) :
    buildQueryString x e =
      (if startsWithHash x then "(name:" ++ x ++ " OR name:" ++ x ++ ")"
       else "(name:#" ++ x ++ " OR name:" ++ x ++ ")") ++
      (if e = "" then "" else " AND email:" ++ e) := by
  unfold buildQueryString
  by_cases hx : startsWithHash x = true <;> by_cases he : e = "" <;>
    simp only [hx, he, Bool.false_eq_true, if_true, if_false, ite_true, ite_false,
      ne_eq, not_true_eq_false, not_false_eq_true] <;>
    simp only [String.append_assoc, he] <;>
    rfl

/-! ## Claims -/

/-- C1: for every order record and every computed daysSince, if the
order's fulfillment status equals FULFILLED compared case-insensitively,
or any fulfillment entry contains at least one tracking entry with a
non-empty tracking number or a non-empty tracking URL, then the resolved
stage is `shipped` with the fixed shipped message, regardless of what the
age classification produced. -/
theorem override_forces_shipped (node : OrderNode) (daysSince : Int)
    (h : jsToUpper node.displayFulfillmentStatus = "FULFILLED" ∨
         ∃ f ∈ node.fulfillments, ∃ t ∈ f.trackingInfo,
           (∃ s, t.number = some s ∧ s ≠ "") ∨ (∃ s, t.url = some s ∧ s ≠ "")) :
    resolveStage node daysSince = ⟨"shipped", "Bestellung versendet."⟩ := by
  unfold resolveStage
  rcases h with h | ⟨f, hf, t, ht, h⟩
  · simp [h]
  · have htr : hasTracking node = true := by
      refine hasTracking_of_entry hf ht ?_
      rcases h with ⟨s, hs, hne⟩ | ⟨s, hs, hne⟩
      · exact Or.inl (by simp [truthy, hs, hne])
      · exact Or.inr (by simp [truthy, hs, hne])
    simp [htr]

/-- Witness for C1: a one-day-old order with a tracking URL resolves to
`shipped` despite its age. -/
theorem override_forces_shipped_witness :
    resolveStage ⟨"#9", "x", 0, "UNFULFILLED", [⟨[⟨none, some "http://t"⟩]⟩]⟩ 1 =
      ⟨"shipped", "Bestellung versendet."⟩ :=
  override_forces_shipped ⟨"#9", "x", 0, "UNFULFILLED", [⟨[⟨none, some "http://t"⟩]⟩]⟩ 1
    (Or.inr ⟨⟨[⟨none, some "http://t"⟩]⟩, by simp,
      ⟨none, some "http://t"⟩, by simp,
      Or.inr ⟨"http://t", rfl, by decide⟩⟩)

/-- C2: for every integer daysSince, when no truthy tracking entry and no
FULFILLED status is present, the resolved stage is `processing` for
daysSince < 2, `packing` for 2 ≤ daysSince < 4, and `shipped` for
daysSince ≥ 4. -/
theorem age_classification (node : OrderNode) (daysSince : Int)
    (h1 : hasTracking node = false)
    (h2 : jsToUpper node.displayFulfillmentStatus ≠ "FULFILLED") :
    (daysSince < 2 → (resolveStage node daysSince).stage = "processing") ∧
    (2 ≤ daysSince → daysSince < 4 → (resolveStage node daysSince).stage = "packing") ∧
    (4 ≤ daysSince → (resolveStage node daysSince).stage = "shipped") := by
  have hres : resolveStage node daysSince = computeStage daysSince := by
    unfold resolveStage
    simp [h1, h2]
  rw [hres]
  unfold computeStage
  refine ⟨fun h => ?_, fun ha hb => ?_, fun h => ?_⟩
  · rw [if_pos h]
  · rw [if_neg (by omega), if_pos hb]
  · rw [if_neg (by omega), if_neg (by omega)]

/-- Witness for C2: an order with no tracking and status UNFULFILLED is
classified by age alone (instantiated at daysSince = 3, giving packing). -/
theorem age_classification_witness :
    ((3 : Int) < 2 → (resolveStage ⟨"#1", "x", 0, "UNFULFILLED", []⟩ 3).stage = "processing") ∧
    ((2 : Int) ≤ 3 → (3 : Int) < 4 → (resolveStage ⟨"#1", "x", 0, "UNFULFILLED", []⟩ 3).stage = "packing") ∧
    ((4 : Int) ≤ 3 → (resolveStage ⟨"#1", "x", 0, "UNFULFILLED", []⟩ 3).stage = "shipped") :=
  age_classification ⟨"#1", "x", 0, "UNFULFILLED", []⟩ 3 (by decide) (by decide)

/-- C3: for every parameter map (with the signature and hmac keys
removed), the signed message is the concatenation, in lexicographic key
order with no separator between pairs, of the strings key=value; given a
truthy provided signature, the Authenticator accepts exactly when that
signature equals the HMAC digest of that message under the configured
secret. -/
theorem accept_iff_digest_of_canonical_message
    (hmacHex : String → String → String)
    (params : List (String × String)) (secret s : String)
    (hprov : jsOr (getParam params "signature") (getParam params "hmac") = some s)
    (hs : s ≠ "") :
    verifyProxySignature hmacHex params secret = Except.ok ⟨true, none⟩ ↔
      s = hmacHex secret (String.join ((sortKeys ((objKeys params).filter
            (fun k => ¬(k = "signature" ∨ k = "hmac")))).map
          (fun k => k ++ "=" ++ ((getParam params k).getD "")))) := by
  have hmsg : canonicalMessage params =
      String.join ((sortKeys ((objKeys params).filter
          (fun k => ¬(k = "signature" ∨ k = "hmac")))).map
        (fun k => k ++ "=" ++ ((getParam params k).getD ""))) := rfl
  rw [← hmsg]
  unfold verifyProxySignature timingSafeEqual
  rw [hprov]
  simp only [truthy, ne_eq, hs, not_false_eq_true, decide_True, not_true_eq_false,
    if_false, Option.getD_some]
  by_cases hb : (hmacHex secret (canonicalMessage params)).utf8ByteSize = s.utf8ByteSize
  · rw [if_pos hb]
    by_cases heq : hmacHex secret (canonicalMessage params) = s
    · simp [heq]
    · simp [heq, Ne.symm heq]
  · rw [if_neg hb]
    constructor
    · intro h
      exact absurd h (by simp)
    · intro h
      exact absurd (congrArg String.utf8ByteSize h.symm) hb

/-- Witness for C3: with digest function m ↦ "D:" ++ m, secret "sec" and
parameters order=1043, shop=x, the signature "D:order=1043shop=x" is
accepted, matching the sorted concatenated message. -/
theorem accept_iff_digest_of_canonical_message_witness :
    verifyProxySignature (fun _ m => "D:" ++ m)
        [("shop", "x"), ("order", "1043"), ("signature", "D:order=1043shop=x")]
        "sec" = Except.ok ⟨true, none⟩ ↔
      "D:order=1043shop=x" = (fun (_ m : String) => "D:" ++ m) "sec"
        (String.join ((sortKeys ((objKeys
            [("shop", "x"), ("order", "1043"), ("signature", "D:order=1043shop=x")]).filter
            (fun k => ¬(k = "signature" ∨ k = "hmac")))).map
          (fun k => k ++ "=" ++ ((getParam
            [("shop", "x"), ("order", "1043"), ("signature", "D:order=1043shop=x")] k).getD "")))) :=
  accept_iff_digest_of_canonical_message (fun _ m => "D:" ++ m)
    [("shop", "x"), ("order", "1043"), ("signature", "D:order=1043shop=x")]
    "sec" "D:order=1043shop=x" (by decide) (by decide)

/-- C4 counterexample: with secret configured and digest function
constantly "00", the request carrying signature "x" (which differs from
the computed digest) is answered with status 500, not 401: the
constant-time buffer comparison throws on the byte-length mismatch and
the catch-all turns it into a server error. -/
theorem mismatched_signature_counterexample :
    (handler (fun _ _ => "00") ⟨some "shop", some "token", none, some "sec"⟩
        (fun _ => Except.ok none) 0 ⟨[("order", "1043"), ("signature", "x")]⟩).status = 500 ∧
    (handler (fun _ _ => "00") ⟨some "shop", some "token", none, some "sec"⟩
        (fun _ => Except.ok none) 0 ⟨[("order", "1043"), ("signature", "x")]⟩).status ≠ 401 ∧
    "x" ≠ (fun (_ _ : String) => "00") "sec"
        (canonicalMessage [("order", "1043"), ("signature", "x")]) := by
  refine ⟨by decide, by decide, by decide⟩

/-- C4 (amended): for every provided signature of the same byte length as
the computed digest that differs from it, verification fails with the
invalid-signature reason and the handler responds 401 without performing
a lookup (a signature of a different byte length instead makes the
comparison throw, surfaced as a 500 server error). -/
theorem mismatched_signature_rejected (hmacHex : String → String → String)
    (cfg : Config) (lookup : String → Except String (Option OrderNode))
    (nowMs : Int) (req : Request) (sec s : String)
    (hshop : truthy cfg.shop = true) (htok : truthy cfg.token = true)
    (hsec : cfg.secret = some sec) (hsecne : sec ≠ "")
    (hprov : jsOr (getParam req.params "signature") (getParam req.params "hmac") = some s)
    (hs : s ≠ "")
    (hlen : s.utf8ByteSize = (hmacHex sec (canonicalMessage req.params)).utf8ByteSize)
    (hne : s ≠ hmacHex sec (canonicalMessage req.params)) :
    (handler hmacHex cfg lookup nowMs req).status = 401 ∧
    (handler hmacHex cfg lookup nowMs req).reason = some "Invalid signature/hmac" ∧
    (handler hmacHex cfg lookup nowMs req).lookupQuery = none := by
  have hv := verify_invalid hmacHex req.params sec s hprov hs hlen hne
  have hts : truthy cfg.secret = true := by
    rw [hsec]
    simp [truthy, hsecne]
  unfold handler
  rw [hshop, htok, hts, hsec]
  simp [hv]

/-- Witness for C4 (amended): signature "11" has the digest's byte
length but differs from digest "00", so the handler answers 401 with the
invalid-signature reason and no lookup. -/
theorem mismatched_signature_rejected_witness :
    (handler (fun _ _ => "00") ⟨some "shop", some "token", none, some "sec"⟩
        (fun _ => Except.ok none) 0 ⟨[("order", "1043"), ("signature", "11")]⟩).status = 401 ∧
    (handler (fun _ _ => "00") ⟨some "shop", some "token", none, some "sec"⟩
        (fun _ => Except.ok none) 0 ⟨[("order", "1043"), ("signature", "11")]⟩).reason =
      some "Invalid signature/hmac" ∧
    (handler (fun _ _ => "00") ⟨some "shop", some "token", none, some "sec"⟩
        (fun _ => Except.ok none) 0 ⟨[("order", "1043"), ("signature", "11")]⟩).lookupQuery = none :=
  mismatched_signature_rejected (fun _ _ => "00")
    ⟨some "shop", some "token", none, some "sec"⟩ (fun _ => Except.ok none) 0
    ⟨[("order", "1043"), ("signature", "11")]⟩ "sec" "11"
    (by decide) (by decide) rfl (by decide) (by decide) (by decide) (by decide) (by decide)

/-- C5: with a signing secret configured, a request on which neither the
signature nor the hmac parameter is truthy fails verification with the
missing-signature reason, is answered with status 401, and triggers no
upstream lookup; moreover whenever the signature key is absent the value
under the hmac key is the one used. -/
theorem missing_signature_rejected (hmacHex : String → String → String)
    (cfg : Config) (lookup : String → Except String (Option OrderNode))
    (nowMs : Int) (req : Request) (sec : String)
    (hshop : truthy cfg.shop = true) (htok : truthy cfg.token = true)
    (hsec : cfg.secret = some sec) (hsecne : sec ≠ "")
    (hmiss : truthy (jsOr (getParam req.params "signature")
      (getParam req.params "hmac")) = false) :
    verifyProxySignature hmacHex req.params sec =
      Except.ok ⟨false, some "Missing signature/hmac"⟩ ∧
    (handler hmacHex cfg lookup nowMs req).status = 401 ∧
    (handler hmacHex cfg lookup nowMs req).lookupQuery = none ∧
    ∀ ps : List (String × String), getParam ps "signature" = none →
      jsOr (getParam ps "signature") (getParam ps "hmac") = getParam ps "hmac" := by
  have hv := verify_missing hmacHex req.params sec hmiss
  have hts : truthy cfg.secret = true := by
    rw [hsec]
    simp [truthy, hsecne]
  refine ⟨hv, ?_, ?_, ?_⟩
  · unfold handler
    rw [hshop, htok, hts, hsec]
    simp [hv]
  · unfold handler
    rw [hshop, htok, hts, hsec]
    simp [hv]
  · intro ps hps
    unfold jsOr
    rw [hps]
    simp [truthy]

/-- Witness for C5: a request carrying only the order parameter is
rejected with 401 and no lookup, and the hmac fallback equation holds. -/
theorem missing_signature_rejected_witness :
    verifyProxySignature (fun _ _ => "00") [("order", "1043")] "sec" =
      Except.ok ⟨false, some "Missing signature/hmac"⟩ ∧
    (handler (fun _ _ => "00") ⟨some "shop", some "token", none, some "sec"⟩
        (fun _ => Except.ok none) 0 ⟨[("order", "1043")]⟩).status = 401 ∧
    (handler (fun _ _ => "00") ⟨some "shop", some "token", none, some "sec"⟩
        (fun _ => Except.ok none) 0 ⟨[("order", "1043")]⟩).lookupQuery = none ∧
    ∀ ps : List (String × String), getParam ps "signature" = none →
      jsOr (getParam ps "signature") (getParam ps "hmac") = getParam ps "hmac" :=
  missing_signature_rejected (fun _ _ => "00")
    ⟨some "shop", some "token", none, some "sec"⟩ (fun _ => Except.ok none) 0
    ⟨[("order", "1043")]⟩ "sec" (by decide) (by decide) rfl (by decide) (by decide)

/-- C6 counterexample: for the order identifier X = "#1043" (already
carrying the # sign) the handler sends "(name:#1043 OR name:#1043)" —
both predicates use the identifier as given — which is not the claim's
exact form "(name:#X OR name:X)", i.e. not "(name:##1043 OR name:#1043)". -/
theorem lookup_query_counterexample :
    (handler (fun _ _ => "") ⟨some "shop", some "token", none, none⟩
        (fun _ => Except.ok none) 0 ⟨[("order", "#1043")]⟩).lookupQuery =
      some "(name:#1043 OR name:#1043)" ∧
    some "(name:#1043 OR name:#1043)" ≠
      some ("(name:" ++ "#" ++ "#1043" ++ " OR name:" ++ "#1043" ++ ")") := by
  refine ⟨by decide, by decide⟩

/-- C6 (amended): for every non-empty trimmed order identifier X, the
search string sent to the order-lookup collaborator is exactly
"(name:#X OR name:X)" when X does not already start with "#", and
"(name:X OR name:X)" when it does (the # sign is added only when absent);
" AND email:Y" is appended when a non-empty email is supplied, where Y is
the email trimmed and lowercased, and omitted otherwise. -/
theorem lookup_query_construction (hmacHex : String → String → String)
    (cfg : Config) (lookup : String → Except String (Option OrderNode))
    (nowMs : Int) (req : Request) (x e : String)
    (hshop : truthy cfg.shop = true) (htok : truthy cfg.token = true)
    (hnosec : truthy cfg.secret = false)
    (hx : x = jsTrim ((getFirstParam req.params "order").getD ""))
    (hxne : x ≠ "")
    (he : e = jsToLower (jsTrim ((getFirstParam req.params "email").getD ""))) :
    (handler hmacHex cfg lookup nowMs req).lookupQuery =
      some ((if startsWithHash x then "(name:" ++ x ++ " OR name:" ++ x ++ ")"
             else "(name:#" ++ x ++ " OR name:" ++ x ++ ")") ++
            (if e = "" then "" else " AND email:" ++ e)) := by
  rw [handler_lookupQuery hmacHex cfg lookup nowMs req hshop htok hnosec (hx ▸ hxne),
    ← hx, ← he, buildQueryString_eq]

/-- Witness for C6 (amended): order " 1043 " with email " A@B.De " yields
the query "(name:#1043 OR name:1043) AND email:a@b.de". -/
theorem lookup_query_construction_witness :
    (handler (fun _ _ => "") ⟨some "shop", some "token", none, none⟩
        (fun _ => Except.ok none) 0
        ⟨[("order", " 1043 "), ("email", " A@B.De ")]⟩).lookupQuery =
      some ((if startsWithHash "1043" then "(name:" ++ "1043" ++ " OR name:" ++ "1043" ++ ")"
             else "(name:#" ++ "1043" ++ " OR name:" ++ "1043" ++ ")") ++
            (if "a@b.de" = "" then "" else " AND email:" ++ "a@b.de")) :=
  lookup_query_construction (fun _ _ => "")
    ⟨some "shop", some "token", none, none⟩ (fun _ => Except.ok none) 0
    ⟨[("order", " 1043 "), ("email", " A@B.De ")]⟩ "1043" "a@b.de"
    (by decide) (by decide) (by decide) (by decide) (by decide) (by decide)

/-- C7 counterexample: for an order whose creation instant lies one day
after the current time, the reported daysSince is -1, a negative value,
so daysSince is not non-negative for every current time. -/
theorem days_since_counterexample :
    ((handler (fun _ _ => "") ⟨some "shop", some "token", none, none⟩
        (fun _ => Except.ok (some ⟨"#1", "2020-01-02T00:00:00Z", 86400000, "UNFULFILLED", []⟩))
        0 ⟨[("order", "1")]⟩).payload.map Payload.daysSince) = some (-1) ∧
    (-1 : Int) < 0 := by
  refine ⟨by decide, by decide⟩

/-- C7 (amended): for every order record with a valid creation timestamp
and every current time not earlier than it, the reported daysSince is a
non-negative integer equal to the elapsed time since creation expressed
in whole days, obtained by truncating the elapsed-time-in-days. -/
theorem days_since_truncated (hmacHex : String → String → String)
    (cfg : Config) (node : OrderNode) (nowMs : Int) (req : Request)
    (hshop : truthy cfg.shop = true) (htok : truthy cfg.token = true)
    (hnosec : truthy cfg.secret = false)
    (hord : jsTrim ((getFirstParam req.params "order").getD "") ≠ "")
    (hts : node.createdAtMs ≤ nowMs) :
    ∃ p, (handler hmacHex cfg (fun _ => Except.ok (some node)) nowMs req).payload = some p ∧
      0 ≤ p.daysSince ∧
      86400000 * p.daysSince ≤ nowMs - node.createdAtMs ∧
      nowMs - node.createdAtMs < 86400000 * (p.daysSince + 1) := by
  rw [handler_success hmacHex cfg node nowMs req hshop htok hnosec hord]
  have hfd : daysSinceOf nowMs node.createdAtMs =
      (nowMs - node.createdAtMs) / 86400000 :=
    Int.fdiv_eq_ediv _ (by norm_num)
  refine ⟨_, rfl, ?_, ?_, ?_⟩ <;>
    simp only [hfd] <;>
    omega

/-- Witness for C7 (amended): an order created ten and a half days before
the current time reports daysSince bounded as ten whole days. -/
theorem days_since_truncated_witness :
    ∃ p, (handler (fun _ _ => "") ⟨some "shop", some "token", none, none⟩
        (fun _ => Except.ok (some ⟨"#1", "t", 0, "UNFULFILLED", []⟩))
        907200000 ⟨[("order", "1")]⟩).payload = some p ∧
      0 ≤ p.daysSince ∧
      86400000 * p.daysSince ≤ 907200000 - 0 ∧
      907200000 - 0 < 86400000 * (p.daysSince + 1) :=
  days_since_truncated (fun _ _ => "") ⟨some "shop", some "token", none, none⟩
    ⟨"#1", "t", 0, "UNFULFILLED", []⟩ 907200000 ⟨[("order", "1")]⟩
    (by decide) (by decide) (by decide) (by decide) (by decide)

/-- C8: for any two order records that agree on name and creation
timestamp but may differ arbitrarily in fulfillment status and tracking
data, the success payloads agree on orderName, createdAt and daysSince —
the reported daysSince always equals the value computed from the creation
timestamp, and firing the override can change only the stage and message
fields. -/
theorem override_frame_property (hmacHex : String → String → String)
    (cfg : Config) (nowMs : Int) (req : Request)
    (hshop : truthy cfg.shop = true) (htok : truthy cfg.token = true)
    (hnosec : truthy cfg.secret = false)
    (hord : jsTrim ((getFirstParam req.params "order").getD "") ≠ "")
    (n1 n2 : OrderNode) (hname : n1.name = n2.name)
    (hca : n1.createdAt = n2.createdAt) (hms : n1.createdAtMs = n2.createdAtMs) :
    ∃ p1 p2,
      (handler hmacHex cfg (fun _ => Except.ok (some n1)) nowMs req).payload = some p1 ∧
      (handler hmacHex cfg (fun _ => Except.ok (some n2)) nowMs req).payload = some p2 ∧
      p1.daysSince = daysSinceOf nowMs n1.createdAtMs ∧
      p2.daysSince = daysSinceOf nowMs n2.createdAtMs ∧
      p1.daysSince = p2.daysSince ∧
      p1.orderName = p2.orderName ∧
      p1.createdAt = p2.createdAt := by
  rw [handler_success hmacHex cfg n1 nowMs req hshop htok hnosec hord,
    handler_success hmacHex cfg n2 nowMs req hshop htok hnosec hord]
  exact ⟨_, _, rfl, rfl, rfl, rfl, by rw [hms], hname, hca⟩

/-- Witness for C8: the same order with and without tracking data yields
payloads agreeing on orderName, createdAt and daysSince. -/
theorem override_frame_property_witness :
    ∃ p1 p2,
      (handler (fun _ _ => "") ⟨some "shop", some "token", none, none⟩
        (fun _ => Except.ok (some ⟨"#1", "t", 0, "UNFULFILLED", []⟩))
        86400000 ⟨[("order", "1")]⟩).payload = some p1 ∧
      (handler (fun _ _ => "") ⟨some "shop", some "token", none, none⟩
        (fun _ => Except.ok (some ⟨"#1", "t", 0, "FULFILLED", [⟨[⟨some "1Z999", none⟩]⟩]⟩))
        86400000 ⟨[("order", "1")]⟩).payload = some p2 ∧
      p1.daysSince = daysSinceOf 86400000 (0 : Int) ∧
      p2.daysSince = daysSinceOf 86400000 (0 : Int) ∧
      p1.daysSince = p2.daysSince ∧
      p1.orderName = p2.orderName ∧
      p1.createdAt = p2.createdAt :=
  override_frame_property (fun _ _ => "") ⟨some "shop", some "token", none, none⟩
    86400000 ⟨[("order", "1")]⟩ (by decide) (by decide) (by decide) (by decide)
    ⟨"#1", "t", 0, "UNFULFILLED", []⟩ ⟨"#1", "t", 0, "FULFILLED", [⟨[⟨some "1Z999", none⟩]⟩]⟩
    rfl rfl rfl

/-- C9: two invocations of the handler with identical query parameters,
identical configuration, the same current time, and upstream lookups that
agree on every query produce identical results (same status, payload with
stage, message and daysSince, and lookup behaviour). -/
theorem handler_deterministic (hmacHex : String → String → String)
    (cfg : Config) (l1 l2 : String → Except String (Option OrderNode))
    (nowMs : Int) (req : Request) (hl : ∀ q, l1 q = l2 q) :
    handler hmacHex cfg l1 nowMs req = handler hmacHex cfg l2 nowMs req := by
  have h : l1 = l2 := funext hl
  rw [h]

/-- Witness for C9: two invocations with the same empty-result lookup
produce the same result. -/
theorem handler_deterministic_witness :
    handler (fun _ _ => "") ⟨some "shop", some "token", none, none⟩
        (fun _ => Except.ok none) 0 ⟨[("order", "1")]⟩ =
      handler (fun _ _ => "") ⟨some "shop", some "token", none, none⟩
        (fun _ => Except.ok none) 0 ⟨[("order", "1")]⟩ :=
  handler_deterministic (fun _ _ => "") ⟨some "shop", some "token", none, none⟩
    (fun _ => Except.ok none) (fun _ => Except.ok none) 0 ⟨[("order", "1")]⟩
    (fun _ => rfl)

/-- C10: signature presence is decided by truthiness, not key presence —
when the signature parameter is present but empty, the Authenticator
falls back to the hmac parameter, and if that is also absent or empty the
request fails as having a missing signature. -/
theorem empty_signature_falls_back (hmacHex : String → String → String)
    (params : List (String × String)) (secret : String)
    (hsig : getParam params "signature" = some "") :
    jsOr (getParam params "signature") (getParam params "hmac") = getParam params "hmac" ∧
    (truthy (getParam params "hmac") = false →
      verifyProxySignature hmacHex params secret =
        Except.ok ⟨false, some "Missing signature/hmac"⟩) := by
  have hfall : jsOr (getParam params "signature") (getParam params "hmac") =
      getParam params "hmac" := by
    unfold jsOr
    rw [hsig]
    simp [truthy]
  refine ⟨hfall, fun hh => ?_⟩
  exact verify_missing hmacHex params secret (by rw [hfall, hh])

/-- Witness for C10: signature present but empty and no hmac parameter
yields the missing-signature failure. -/
theorem empty_signature_falls_back_witness :
    jsOr (getParam [("order", "1"), ("signature", "")] "signature")
        (getParam [("order", "1"), ("signature", "")] "hmac") =
      getParam [("order", "1"), ("signature", "")] "hmac" ∧
    (truthy (getParam [("order", "1"), ("signature", "")] "hmac") = false →
      verifyProxySignature (fun _ _ => "00") [("order", "1"), ("signature", "")] "sec" =
        Except.ok ⟨false, some "Missing signature/hmac"⟩) :=
  empty_signature_falls_back (fun _ _ => "00") [("order", "1"), ("signature", "")]
    "sec" (by decide)

end OrderStatus
